import Mathlib

/-!
Shallow embedding of the authentication core of the
`react-native-training-api` repository: the JWT token service
(`jsonwebtoken` usage in `src/controllers/authController.ts`), the
authentication middleware (`protect` / `authorize` in
`src/middleware/auth.ts`), and the account-lifecycle handlers
(`register`, `login`, `refreshToken`).

JSON Web Tokens are modelled symbolically: a signed token records its
payload, its issued-at time (the `iat` claim `jwt.sign` embeds
automatically), the secret it was signed with, and its expiry; two tokens
are equal exactly when all of these coincide, which captures that HS256
signing is deterministic and collision-free in the symbolic model.
Express request/response plumbing is modelled by explicit result values;
the `res.status(...)` / `throw` / `globalErrorHandler` interplay is
reproduced faithfully, in particular that `globalErrorHandler` responds
with the last status code set on the response.
-/

/-- A JWT payload as a JS object: `id` always present, `email` and `role`
present on access tokens, absent on refresh tokens. -/
structure Payload where
  id : Nat
  email : Option String
  role : Option String
deriving DecidableEq, Repr

/-- A bearer token string, symbolically: either a well-formed JWT produced
by `jwt.sign`, or some other (malformed) string. -/
inductive Token where
  | signed (payload : Payload) (iat : Nat) (secret : String) (exp : Nat)
  | malformed (raw : String)
deriving DecidableEq, Repr

/-- `jwt.sign(payload, secret, {expiresIn})` at clock time `now`:
the token embeds the payload, `iat = now`, and `exp = now + expiresIn`. -/
def jwtSign (payload : Payload) (secret : String) (now expiresIn : Nat) : Token :=
  Token.signed payload now secret (now + expiresIn)

/-- `jwt.verify(token, secret)` at clock time `now`: succeeds with the
decoded payload iff the token is well formed, was signed with `secret`,
and is not yet expired (`now < exp`); otherwise it throws, modelled as
`none`. -/
def jwtVerify (t : Token) (secret : String) (now : Nat) : Option Payload :=
  match t with
  | Token.signed p _ s exp => if s = secret ∧ now < exp then some p else none
  | Token.malformed _ => none

/-- The configuration surface the core consumes (`src/config/config.ts`):
the two token secrets and the two expiry durations (in abstract time
units). -/
structure Config where
  jwtSecret : String
  jwtExpiresIn : Nat
  jwtRefreshSecret : String
  jwtRefreshExpiresIn : Nat
deriving DecidableEq, Repr

/-- An account document. Modelled from the spec: the `User` model file is
not under `src/` (only its callers are); per the data-model section an
Account holds an id, email, optional display name, a salted password
hash, a role string defaulting to `"user"`, and the current refresh
token, absent until first issuance. -/
structure User where
  id : Nat
  name : Option String
  email : String
  passwordHash : String
  role : String
  refreshToken : Option Token
deriving DecidableEq, Repr

/-- Modelled from the spec: the Password Hasher lives in the `User` model
file, which is not under `src/`. It is a one-way transform used at
account creation and at login; symbolically an injective tagging
function, so that a presented secret verifies against a stored hash
exactly when it is the originally hashed password. -/
def hashPassword (password : String) : String :=
  "hashed:" ++ password

/-- Modelled from the spec: `user.comparePassword(candidate)` verifies the
presented secret against the stored hash. -/
def comparePassword (u : User) (password : String) : Bool :=
  u.passwordHash == hashPassword password

/-- The Credential Store, abstracted as the list of account documents. -/
abbrev Store := List User

/-- `User.findOne({email})`. -/
def findByEmail (db : Store) (email : String) : Option User :=
  db.find? (fun u => u.email == email)

/-- `User.findByIdAndUpdate(id, {refreshToken})`: overwrite the stored
refresh token of the account(s) with the given id. -/
def updateRefreshToken (db : Store) (id : Nat) (rt : Token) : Store :=
  db.map (fun u => if u.id == id then { u with refreshToken := some rt } else u)

/-- Outcome of the `register` handler. -/
inductive RegisterResult where
  | conflict (status : Nat) (message : String)
  | created (status : Nat) (accessToken : Token) (refreshTok : Token) (user : User)
deriving DecidableEq, Repr

/-- The `register` handler (`authController.ts`): 409 on duplicate email;
otherwise create the account (fresh id `newId`, role defaulting to
`"user"`), sign both token classes, persist the refresh token on the
account, and respond 201. -/
def register (cfg : Config) (db : Store) (now : Nat) (newId : Nat)
    (name : Option String) (email password : String) : RegisterResult × Store :=
  match findByEmail db email with
  | some _ => (RegisterResult.conflict 409 "User already exists", db)
  | none =>
    let accessToken := jwtSign ⟨newId, some email, some "user"⟩ cfg.jwtSecret now cfg.jwtExpiresIn
    let refreshTok := jwtSign ⟨newId, none, none⟩ cfg.jwtRefreshSecret now cfg.jwtRefreshExpiresIn
    let user : User :=
      { id := newId, name := name, email := email,
        passwordHash := hashPassword password, role := "user",
        refreshToken := some refreshTok }
    (RegisterResult.created 201 accessToken refreshTok user, db ++ [user])

/-- Outcome of the `login` handler. -/
inductive LoginResult where
  | unauthorized (status : Nat) (message : String)
  | ok (status : Nat) (accessToken : Token) (refreshTok : Token) (user : User)
deriving DecidableEq, Repr

/-- The `login` handler (`authController.ts`): 401 if no account matches
the email or the password does not verify; otherwise sign both token
classes, rotate the stored refresh token via `findByIdAndUpdate`, and
respond 200. -/
def login (cfg : Config) (db : Store) (now : Nat)
    (email password : String) : LoginResult × Store :=
  match findByEmail db email with
  | none => (LoginResult.unauthorized 401 "Invalid credentials", db)
  | some user =>
    if comparePassword user password then
      let accessToken :=
        jwtSign ⟨user.id, some user.email, some user.role⟩ cfg.jwtSecret now cfg.jwtExpiresIn
      let refreshTok :=
        jwtSign ⟨user.id, none, none⟩ cfg.jwtRefreshSecret now cfg.jwtRefreshExpiresIn
      (LoginResult.ok 200 accessToken refreshTok user,
        updateRefreshToken db user.id refreshTok)
    else (LoginResult.unauthorized 401 "Invalid credentials", db)

/-- Outcome of the `refreshToken` handler. -/
inductive RefreshResult where
  | err (status : Nat) (message : String)
  | ok (status : Nat) (accessToken : Token)
deriving DecidableEq, Repr

/-- The `refreshToken` handler (`authController.ts`). The no-matching-user
branch sets `res.status(404)` and throws, but that throw happens inside
the handler's inner `try`, so the inner `catch` re-sets the status to 401
and responds `"Invalid refresh token"`: the 404 never reaches the client,
because `globalErrorHandler` uses the last status code set. No store
write occurs on any path, so the store is returned unchanged. -/
def refreshToken (cfg : Config) (db : Store) (now : Nat)
    (rt? : Option Token) : RefreshResult × Store :=
  match rt? with
  | none => (RefreshResult.err 401 "Refresh token is required", db)
  | some rt =>
    match jwtVerify rt cfg.jwtRefreshSecret now with
    | none => (RefreshResult.err 401 "Invalid refresh token", db)
    | some decoded =>
      match db.find? (fun u => u.id == decoded.id && u.refreshToken == some rt) with
      | none => (RefreshResult.err 401 "Invalid refresh token", db)
      | some user =>
        (RefreshResult.ok 200
          (jwtSign ⟨user.id, some user.email, some user.role⟩ cfg.jwtSecret now cfg.jwtExpiresIn),
          db)

/-- `authorization.startsWith('Bearer')`: JS string `startsWith`, i.e. the
characters of `"Bearer"` lead the header value. -/
def headerHasBearerScheme (s : String) : Bool :=
  "Bearer".data.isPrefixOf s.data

/-- The authorization header, abstracted as the scheme word and the
credential following the single space (absent when nothing follows). -/
structure AuthHeaderVal where
  scheme : String
  credential : Option Token
deriving DecidableEq, Repr

/-- Outcome of a middleware step: short-circuit rejection with an HTTP
status and message, or proceed with the resolved identity attached. -/
inductive GateOutcome where
  | reject (status : Nat) (message : String)
  | proceed (identity : Payload)
deriving DecidableEq, Repr

/-- The `protect` middleware (`src/middleware/auth.ts`). The extraction
step takes the credential only when the header is present and its value
begins with `Bearer`. Both the missing-token throw (whose
`"no token provided"` message is swallowed by the function's own
`catch`) and any `jwt.verify` failure land in the same `catch`, which
responds 401 `"Not authorized, token failed"`. On success the decoded
claims become `req.user`. -/
def protect (cfg : Config) (now : Nat) (header : Option AuthHeaderVal) : GateOutcome :=
  let token? : Option Token :=
    match header with
    | some h => if headerHasBearerScheme h.scheme then h.credential else none
    | none => none
  match token? with
  | none => GateOutcome.reject 401 "Not authorized, token failed"
  | some t =>
    match jwtVerify t cfg.jwtSecret now with
    | none => GateOutcome.reject 401 "Not authorized, token failed"
    | some p => GateOutcome.proceed p

/-- `roles.includes(req.user.role)`: in JS a payload lacking a role never
passes the allow-list test. -/
def roleAllowed (u : Payload) (roles : List String) : Bool :=
  match u.role with
  | some r => roles.contains r
  | none => false

/-- The `authorize(...roles)` middleware (`src/middleware/auth.ts`): a
pure function of the already-resolved identity. With no identity
attached it throws with status 401 and the `"no token provided"`
message (this throw is not inside any `try`, so the message survives to
the error handler); with an identity whose role is outside the
allow-list it rejects 403; otherwise it proceeds. -/
def authorize (roles : List String) (user? : Option Payload) : GateOutcome :=
  match user? with
  | none => GateOutcome.reject 401 "Not authorized, no token provided"
  | some u =>
    if roleAllowed u roles then GateOutcome.proceed u
    else
      GateOutcome.reject 403
        ("User role " ++ u.role.getD "undefined" ++ " is not authorized to access this route")

/-! ### Store lemmas -/

/-- Rotating a refresh token never changes which account an email lookup
finds, beyond the rotated field itself. -/
theorem findByEmail_updateRefreshToken (db : Store) (id : Nat) (rt : Token) (email : String) :
    findByEmail (updateRefreshToken db id rt) email
      = (findByEmail db email).map
          (fun u => if u.id == id then { u with refreshToken := some rt } else u) := by
  unfold findByEmail updateRefreshToken
  rw [List.find?_map]
  have hpr : ((fun u : User => u.email == email) ∘
      (fun u : User => if u.id == id then { u with refreshToken := some rt } else u))
      = (fun u : User => u.email == email) := by
    funext u
    by_cases h : u.id = id <;> simp [h]
  rw [hpr]

/-- After a rotation, every account in the store carrying the rotated id
holds the new refresh token. -/
theorem refreshToken_of_mem_updateRefreshToken (db : Store) (id : Nat) (rt : Token)
    (v : User) (hv : v ∈ updateRefreshToken db id rt) (hid : v.id = id) :
    v.refreshToken = some rt := by
  unfold updateRefreshToken at hv
  obtain ⟨w, hw, rfl⟩ := List.mem_map.1 hv
  by_cases h : w.id = id
  · simp [h]
  · simp [h] at hid

/-- A `find?` existence principle: a satisfying member yields a found
element satisfying the predicate. -/
theorem find?_exists {α : Type} {p : α → Bool} {l : List α}
    (h : ∃ x ∈ l, p x = true) : ∃ w, l.find? p = some w ∧ p w = true := by
  obtain ⟨w, hw⟩ := Option.isSome_iff_exists.1 (List.find?_isSome.2 h)
  exact ⟨w, hw, List.find?_some hw⟩

/-! ### Concrete fixture -/

/-- A concrete configuration with distinct secrets. -/
def cfgW : Config := ⟨"access-secret", 10, "refresh-secret", 100⟩

/-- A concrete refresh token issued at time 0 for account 1. -/
def rtW : Token := jwtSign ⟨1, none, none⟩ "refresh-secret" 0 100

/-- A concrete account holding `rtW`. -/
def uW : User := ⟨1, some "Ann", "a@x.com", hashPassword "secret1", "user", some rtW⟩

/-- A concrete one-account store. -/
def dbW : Store := [uW]

/-! ### Claim theorems -/

/-- C1: a refresh token that verifies cryptographically (here: signed with
the refresh secret, unexpired at time 50) but matches no account's stored
refresh-token value is answered with 401 `"Invalid refresh token"`, not
with the NotFound (404) the claim prescribes: the handler's 404 is
thrown inside its own inner `try` and the inner `catch` overwrites the
status with 401. -/
theorem C1_unmatched_refresh_responds_401 :
    jwtVerify (jwtSign ⟨1, none, none⟩ "refresh-secret" 5 100) "refresh-secret" 50
        = some ⟨1, none, none⟩ ∧
    refreshToken cfgW dbW 50 (some (jwtSign ⟨1, none, none⟩ "refresh-secret" 5 100))
        = (RefreshResult.err 401 "Invalid refresh token", dbW) := by
  exact ⟨by decide, by decide⟩

/-- C2: a request with no authorization header, and likewise one whose
header does not carry the bearer scheme, is rejected with 401 but with
message `"Not authorized, token failed"` — not the `"no token provided"`
reason the claim states: the middleware's own `catch` swallows the
`"no token provided"` throw and replaces its message. -/
theorem C2_gate_no_token_message :
    protect cfgW 0 none = GateOutcome.reject 401 "Not authorized, token failed" ∧
    protect cfgW 0
        (some ⟨"Basic", some (jwtSign ⟨1, some "a@x.com", some "user"⟩ "access-secret" 0 10)⟩)
        = GateOutcome.reject 401 "Not authorized, token failed" := by
  exact ⟨by decide, by decide⟩

/-- C6: with distinct access and refresh secrets, a token signed with the
refresh secret never passes verification against the access secret, and
a token signed with the access secret never passes verification against
the refresh secret. -/
theorem C6_secret_separation (cfg : Config) (h : cfg.jwtSecret ≠ cfg.jwtRefreshSecret)
    (p : Payload) (iat dur now : Nat) :
    jwtVerify (jwtSign p cfg.jwtRefreshSecret iat dur) cfg.jwtSecret now = none ∧
    jwtVerify (jwtSign p cfg.jwtSecret iat dur) cfg.jwtRefreshSecret now = none := by
  constructor <;> simp [jwtVerify, jwtSign, h, Ne.symm h]

/-- Witness for C6 at the concrete configuration `cfgW`. -/
theorem C6_secret_separation_witness :
    jwtVerify (jwtSign ⟨1, none, none⟩ "refresh-secret" 0 100) "access-secret" 7 = none ∧
    jwtVerify (jwtSign ⟨1, none, none⟩ "access-secret" 0 100) "refresh-secret" 7 = none :=
  C6_secret_separation cfgW (by decide) ⟨1, none, none⟩ 0 100 7

/-- C8: a token signed with the access secret (valid signature) whose
expiry is not in the future of the verification time is rejected by the
Gate with 401. -/
theorem C8_expired_token_rejected (cfg : Config) (now : Nat) (p : Payload) (iat e : Nat)
    (h : e ≤ now) :
    protect cfg now (some ⟨"Bearer", some (Token.signed p iat cfg.jwtSecret e)⟩)
      = GateOutcome.reject 401 "Not authorized, token failed" := by
  have hb : headerHasBearerScheme "Bearer" = true := by decide
  simp [protect, hb, jwtVerify, Nat.not_lt.mpr h]

/-- Witness for C8: an access token that expired at time 10, presented at
time 50, is rejected. -/
theorem C8_expired_token_rejected_witness :
    protect cfgW 50
        (some ⟨"Bearer", some (Token.signed ⟨1, some "a@x.com", some "user"⟩ 0 "access-secret" 10)⟩)
      = GateOutcome.reject 401 "Not authorized, token failed" :=
  C8_expired_token_rejected cfgW 50 ⟨1, some "a@x.com", some "user"⟩ 0 10 (by decide)

/-- C9: given a resolved identity, the role allow-list check proceeds
exactly when the identity's role is in the permitted set and otherwise
rejects with the distinct 403 forbidden outcome; in particular a
`"user"` identity is forbidden (403) on an `"admin"`-only endpoint. -/
theorem C9_authorize_allowlist :
    (∀ (roles : List String) (u : Payload),
      authorize roles (some u)
        = if roleAllowed u roles then GateOutcome.proceed u
          else GateOutcome.reject 403
            ("User role " ++ u.role.getD "undefined" ++ " is not authorized to access this route")) ∧
    (∀ (i : Nat) (e : Option String),
      authorize ["admin"] (some ⟨i, e, some "user"⟩)
        = GateOutcome.reject 403 "User role user is not authorized to access this route") := by
  constructor
  · intro roles u
    rfl
  · intro i e
    rfl

/-- C10: with no identity attached to the request, the role check rejects
with 401 and the `"no token provided"` message, for every allow-list —
so the 403 forbidden outcome can only arise when an identity was
resolved. -/
theorem C10_authorize_without_identity :
    ∀ roles : List String,
      authorize roles none = GateOutcome.reject 401 "Not authorized, no token provided" := by
  intro roles
  rfl

/-- C4: a refresh call presenting a still-valid refresh token that matches
some account's id and stored value succeeds with 200 and a freshly
signed access token, and returns the store unchanged — every account
field, the stored refresh token included, is untouched, so arbitrarily
many repetitions behave identically. -/
theorem C4_refresh_preserves_store (cfg : Config) (db : Store) (now : Nat)
    (rt : Token) (d : Payload)
    (hver : jwtVerify rt cfg.jwtRefreshSecret now = some d)
    (hmatch : ∃ u ∈ db, u.id = d.id ∧ u.refreshToken = some rt) :
    ∃ u : User, refreshToken cfg db now (some rt)
      = (RefreshResult.ok 200
          (jwtSign ⟨u.id, some u.email, some u.role⟩ cfg.jwtSecret now cfg.jwtExpiresIn), db) := by
  have hex : ∃ x ∈ db, (fun u => u.id == d.id && u.refreshToken == some rt) x = true := by
    obtain ⟨u, hu, h1, h2⟩ := hmatch
    exact ⟨u, hu, by simp [h1, h2]⟩
  obtain ⟨w, hfind, -⟩ := find?_exists hex
  refine ⟨w, ?_⟩
  simp [refreshToken, hver, hfind]

/-- Witness for C4: the fixture account's current refresh token, presented
at time 50, yields a new access token and leaves the store unchanged. -/
theorem C4_refresh_preserves_store_witness :
    ∃ u : User, refreshToken cfgW dbW 50 (some rtW)
      = (RefreshResult.ok 200
          (jwtSign ⟨u.id, some u.email, some u.role⟩ cfgW.jwtSecret 50 cfgW.jwtExpiresIn), dbW) :=
  C4_refresh_preserves_store cfgW dbW 50 rtW ⟨1, none, none⟩ (by decide)
    ⟨uW, by decide, by decide, by decide⟩

/-- C5: registering an unused email succeeds with 201, appends the created
account (id `newId`, the given email, role `"user"`), and the returned
access token, presented as a bearer credential before its expiry,
passes the Gate and resolves to exactly that account's id, email and
role. -/
theorem C5_register_roundtrip (cfg : Config) (db : Store) (now newId : Nat)
    (name : Option String) (email password : String)
    (hfree : findByEmail db email = none) :
    ∃ atk rtk : Token, ∃ u : User,
      register cfg db now newId name email password
        = (RegisterResult.created 201 atk rtk u, db ++ [u]) ∧
      u.id = newId ∧ u.email = email ∧ u.role = "user" ∧
      ∀ t, t < now + cfg.jwtExpiresIn →
        protect cfg t (some ⟨"Bearer", some atk⟩)
          = GateOutcome.proceed ⟨u.id, some u.email, some u.role⟩ := by
  refine ⟨jwtSign ⟨newId, some email, some "user"⟩ cfg.jwtSecret now cfg.jwtExpiresIn,
      jwtSign ⟨newId, none, none⟩ cfg.jwtRefreshSecret now cfg.jwtRefreshExpiresIn,
      ⟨newId, name, email, hashPassword password, "user",
        some (jwtSign ⟨newId, none, none⟩ cfg.jwtRefreshSecret now cfg.jwtRefreshExpiresIn)⟩,
      ?_, rfl, rfl, rfl, ?_⟩
  · simp [register, hfree]
  · intro t ht
    have hb : headerHasBearerScheme "Bearer" = true := by decide
    simp [protect, hb, jwtVerify, jwtSign, ht]

/-- Witness for C5 on an empty store. -/
theorem C5_register_roundtrip_witness :
    ∃ atk rtk : Token, ∃ u : User,
      register cfgW [] 5 1 none "b@x.com" "pw12345"
        = (RegisterResult.created 201 atk rtk u, [] ++ [u]) ∧
      u.id = 1 ∧ u.email = "b@x.com" ∧ u.role = "user" ∧
      ∀ t, t < 5 + cfgW.jwtExpiresIn →
        protect cfgW t (some ⟨"Bearer", some atk⟩)
          = GateOutcome.proceed ⟨u.id, some u.email, some u.role⟩ :=
  C5_register_roundtrip cfgW [] 5 1 none "b@x.com" "pw12345" rfl

/-- C7: for a store lookup finding the account, login with a verifying
password responds 200 with both token classes and rotates only the
stored refresh token; with a non-verifying password, or when no account
matches the email, it responds 401 `"Invalid credentials"`, issues no
tokens, and returns the store entirely unchanged. -/
theorem C7_login_contract (cfg : Config) (db : Store) (now : Nat) (email password : String) :
    (∀ u, findByEmail db email = some u →
      (comparePassword u password = true →
        login cfg db now email password
          = (LoginResult.ok 200
              (jwtSign ⟨u.id, some u.email, some u.role⟩ cfg.jwtSecret now cfg.jwtExpiresIn)
              (jwtSign ⟨u.id, none, none⟩ cfg.jwtRefreshSecret now cfg.jwtRefreshExpiresIn)
              u,
             updateRefreshToken db u.id
               (jwtSign ⟨u.id, none, none⟩ cfg.jwtRefreshSecret now cfg.jwtRefreshExpiresIn))) ∧
      (comparePassword u password = false →
        login cfg db now email password
          = (LoginResult.unauthorized 401 "Invalid credentials", db))) ∧
    (findByEmail db email = none →
      login cfg db now email password
        = (LoginResult.unauthorized 401 "Invalid credentials", db)) := by
  refine ⟨fun u hu => ⟨fun hpw => ?_, fun hpw => ?_⟩, fun hnone => ?_⟩
  · simp [login, hu, hpw]
  · simp [login, hu, hpw]
  · simp [login, hnone]

/-- Witness for C7: correct password, wrong password, and unknown email on
the fixture store. -/
theorem C7_login_contract_witness :
    login cfgW dbW 3 "a@x.com" "secret1"
      = (LoginResult.ok 200
          (jwtSign ⟨1, some "a@x.com", some "user"⟩ cfgW.jwtSecret 3 cfgW.jwtExpiresIn)
          (jwtSign ⟨1, none, none⟩ cfgW.jwtRefreshSecret 3 cfgW.jwtRefreshExpiresIn)
          uW,
         updateRefreshToken dbW uW.id
           (jwtSign ⟨1, none, none⟩ cfgW.jwtRefreshSecret 3 cfgW.jwtRefreshExpiresIn)) ∧
    login cfgW dbW 3 "a@x.com" "wrong"
      = (LoginResult.unauthorized 401 "Invalid credentials", dbW) ∧
    login cfgW [] 3 "nobody@x.com" "secret1"
      = (LoginResult.unauthorized 401 "Invalid credentials", []) :=
  ⟨((C7_login_contract cfgW dbW 3 "a@x.com" "secret1").1 uW (by decide)).1 (by decide),
   ((C7_login_contract cfgW dbW 3 "a@x.com" "wrong").1 uW (by decide)).2 (by decide),
   (C7_login_contract cfgW [] 3 "nobody@x.com" "secret1").2 (by decide)⟩

/-- The refresh token `login` (and `register`) signs at time `t` for
account id `i`: id-only claims, refresh secret, refresh expiry. -/
def refreshSig (cfg : Config) (i t : Nat) : Token :=
  jwtSign ⟨i, none, none⟩ cfg.jwtRefreshSecret t cfg.jwtRefreshExpiresIn

/-- The access token `login` signs at time `t` for account `u`. -/
def accessSig (cfg : Config) (u : User) (t : Nat) : Token :=
  jwtSign ⟨u.id, some u.email, some u.role⟩ cfg.jwtSecret t cfg.jwtExpiresIn

/-- An account with its stored refresh token overwritten. -/
def withRT (u : User) (rt : Token) : User :=
  { u with refreshToken := some rt }

/-- Rotation acts on each account as `withRT` when the id matches. -/
theorem updateRefreshToken_eq_map (db : Store) (id : Nat) (rt : Token) :
    updateRefreshToken db id rt
      = db.map (fun v => if v.id == id then withRT v rt else v) := rfl

/-- What a successful login evaluates to. -/
theorem login_ok (cfg : Config) (db : Store) (t : Nat) (email pw : String) (u : User)
    (h1 : findByEmail db email = some u) (h2 : comparePassword u pw = true) :
    login cfg db t email pw
      = (LoginResult.ok 200 (accessSig cfg u t) (refreshSig cfg u.id t) u,
         updateRefreshToken db u.id (refreshSig cfg u.id t)) := by
  simp [login, h1, h2, accessSig, refreshSig]

/-- Rotating a refresh token moves the found-by-email account through
`withRT`. -/
theorem findByEmail_after_update (db : Store) (email : String) (u : User) (rt : Token)
    (h1 : findByEmail db email = some u) :
    findByEmail (updateRefreshToken db u.id rt) email = some (withRT u rt) := by
  rw [findByEmail_updateRefreshToken, h1]
  simp [withRT]

/-- An account rotated into a store is a member of the rotated store. -/
theorem withRT_mem_updateRefreshToken (db : Store) (u : User) (rt : Token) (hu : u ∈ db) :
    withRT u rt ∈ updateRefreshToken db u.id rt := by
  unfold updateRefreshToken
  have h := List.mem_map_of_mem
    (fun v : User => if v.id == u.id then { v with refreshToken := some rt } else v) hu
  simpa [withRT] using h

/-- C3: the refresh operation mints a new access token only if the
presented token verifies cryptographically against the refresh secret
AND its literal value equals the refresh token currently stored on the
account carrying the token's id claim; consequently, after two
successive logins (at distinct issue times) for the same account, the
first login's refresh token is rejected by the refresh operation —
whether or not it is still unexpired — while the second login's refresh
token, presented while valid, succeeds. -/
theorem C3_refresh_rotation (cfg : Config) (db : Store) (t1 t2 now : Nat)
    (email pw : String) (u : User)
    (h1 : findByEmail db email = some u)
    (h2 : comparePassword u pw = true)
    (hne : t1 ≠ t2)
    (hfresh : now < t2 + cfg.jwtRefreshExpiresIn) :
    (∀ (cfg' : Config) (db' : Store) (now' : Nat) (rt tok : Token) (st : Nat),
      (refreshToken cfg' db' now' (some rt)).1 = RefreshResult.ok st tok →
      ∃ d : Payload, jwtVerify rt cfg'.jwtRefreshSecret now' = some d ∧
        ∃ v ∈ db', v.id = d.id ∧ v.refreshToken = some rt) ∧
    (∃ a1 a2 : Token, ∃ u2 : User, ∃ rt1 rt2 : Token,
      (login cfg db t1 email pw).1 = LoginResult.ok 200 a1 rt1 u ∧
      (login cfg (login cfg db t1 email pw).2 t2 email pw).1
        = LoginResult.ok 200 a2 rt2 u2 ∧
      (refreshToken cfg (login cfg (login cfg db t1 email pw).2 t2 email pw).2 now
          (some rt1)).1
        = RefreshResult.err 401 "Invalid refresh token" ∧
      ∃ tok : Token,
        (refreshToken cfg (login cfg (login cfg db t1 email pw).2 t2 email pw).2 now
            (some rt2)).1
          = RefreshResult.ok 200 tok) := by
  constructor
  · intro cfg' db' now' rt tok st h
    cases hv : jwtVerify rt cfg'.jwtRefreshSecret now' with
    | none => simp [refreshToken, hv] at h
    | some d =>
      cases hf : db'.find? (fun v => v.id == d.id && v.refreshToken == some rt) with
      | none => simp [refreshToken, hv, hf] at h
      | some w =>
        have hw := List.find?_some hf
        rw [Bool.and_eq_true, beq_iff_eq, beq_iff_eq] at hw
        exact ⟨d, rfl, w, List.mem_of_find?_eq_some hf, hw.1, hw.2⟩
  have e1 : login cfg db t1 email pw
      = (LoginResult.ok 200 (accessSig cfg u t1) (refreshSig cfg u.id t1) u,
         updateRefreshToken db u.id (refreshSig cfg u.id t1)) :=
    login_ok cfg db t1 email pw u h1 h2
  have hu1 : findByEmail (updateRefreshToken db u.id (refreshSig cfg u.id t1)) email
      = some (withRT u (refreshSig cfg u.id t1)) :=
    findByEmail_after_update db email u (refreshSig cfg u.id t1) h1
  have h2' : comparePassword (withRT u (refreshSig cfg u.id t1)) pw = true := h2
  have e2 : login cfg (updateRefreshToken db u.id (refreshSig cfg u.id t1)) t2 email pw
      = (LoginResult.ok 200 (accessSig cfg (withRT u (refreshSig cfg u.id t1)) t2)
          (refreshSig cfg u.id t2) (withRT u (refreshSig cfg u.id t1)),
         updateRefreshToken (updateRefreshToken db u.id (refreshSig cfg u.id t1)) u.id
           (refreshSig cfg u.id t2)) :=
    login_ok cfg (updateRefreshToken db u.id (refreshSig cfg u.id t1)) t2 email pw
      (withRT u (refreshSig cfg u.id t1)) hu1 h2'
  refine ⟨accessSig cfg u t1, accessSig cfg (withRT u (refreshSig cfg u.id t1)) t2,
      withRT u (refreshSig cfg u.id t1),
      refreshSig cfg u.id t1, refreshSig cfg u.id t2, ?_, ?_, ?_, ?_⟩
  · rw [e1]
  · rw [e1, e2]
  · rw [e1, e2]
    have hall : ∀ v ∈ updateRefreshToken
        (updateRefreshToken db u.id (refreshSig cfg u.id t1)) u.id (refreshSig cfg u.id t2),
        ¬((v.id == u.id && v.refreshToken == some (refreshSig cfg u.id t1)) = true) := by
      intro v hv hcon
      rw [Bool.and_eq_true, beq_iff_eq, beq_iff_eq] at hcon
      obtain ⟨hvid, hvrt⟩ := hcon
      have hv2 : v.refreshToken = some (refreshSig cfg u.id t2) :=
        refreshToken_of_mem_updateRefreshToken
          (updateRefreshToken db u.id (refreshSig cfg u.id t1)) u.id
          (refreshSig cfg u.id t2) v hv hvid
      rw [hv2, Option.some.injEq] at hvrt
      unfold refreshSig jwtSign at hvrt
      rw [Token.signed.injEq] at hvrt
      exact hne hvrt.2.1.symm
    have hnone : (updateRefreshToken
        (updateRefreshToken db u.id (refreshSig cfg u.id t1)) u.id
        (refreshSig cfg u.id t2)).find?
        (fun v => v.id == u.id && v.refreshToken == some (refreshSig cfg u.id t1))
        = none := List.find?_eq_none.2 hall
    simp only [refreshSig, jwtSign] at hnone
    by_cases hexp : now < t1 + cfg.jwtRefreshExpiresIn
    · simp [refreshToken, refreshSig, jwtSign, jwtVerify, hexp, hnone]
    · simp [refreshToken, refreshSig, jwtSign, jwtVerify, hexp]
  · rw [e1, e2]
    have humem : u ∈ db := by
      unfold findByEmail at h1
      exact List.mem_of_find?_eq_some h1
    have hmem1 : withRT u (refreshSig cfg u.id t1)
        ∈ updateRefreshToken db u.id (refreshSig cfg u.id t1) :=
      withRT_mem_updateRefreshToken db u (refreshSig cfg u.id t1) humem
    have hmem2 : withRT (withRT u (refreshSig cfg u.id t1)) (refreshSig cfg u.id t2)
        ∈ updateRefreshToken (updateRefreshToken db u.id (refreshSig cfg u.id t1)) u.id
          (refreshSig cfg u.id t2) :=
      withRT_mem_updateRefreshToken (updateRefreshToken db u.id (refreshSig cfg u.id t1))
        (withRT u (refreshSig cfg u.id t1)) (refreshSig cfg u.id t2) hmem1
    have hex : ∃ x ∈ updateRefreshToken
        (updateRefreshToken db u.id (refreshSig cfg u.id t1)) u.id (refreshSig cfg u.id t2),
        (fun v => v.id == u.id && v.refreshToken == some (refreshSig cfg u.id t2)) x = true :=
      ⟨withRT (withRT u (refreshSig cfg u.id t1)) (refreshSig cfg u.id t2), hmem2,
        by simp [withRT]⟩
    obtain ⟨w, hfind, -⟩ := find?_exists hex
    simp only [refreshSig, jwtSign] at hfind
    refine ⟨jwtSign ⟨w.id, some w.email, some w.role⟩ cfg.jwtSecret now cfg.jwtExpiresIn, ?_⟩
    simp [refreshToken, refreshSig, jwtSign, jwtVerify, hfresh, hfind]

/-- Witness for C3: the minting invariant instantiated at a successful
concrete refresh (the fixture token at time 50), and the two-login
scenario at times 10 and 11 with the rejection/acceptance checked at
time 12. -/
theorem C3_refresh_rotation_witness :
    (∃ d : Payload, jwtVerify rtW cfgW.jwtRefreshSecret 50 = some d ∧
      ∃ v ∈ dbW, v.id = d.id ∧ v.refreshToken = some rtW) ∧
    (∃ a1 a2 : Token, ∃ u2 : User, ∃ rt1 rt2 : Token,
      (login cfgW dbW 10 "a@x.com" "secret1").1 = LoginResult.ok 200 a1 rt1 uW ∧
      (login cfgW (login cfgW dbW 10 "a@x.com" "secret1").2 11 "a@x.com" "secret1").1
        = LoginResult.ok 200 a2 rt2 u2 ∧
      (refreshToken cfgW
          (login cfgW (login cfgW dbW 10 "a@x.com" "secret1").2 11 "a@x.com" "secret1").2 12
          (some rt1)).1
        = RefreshResult.err 401 "Invalid refresh token" ∧
      ∃ tok : Token,
        (refreshToken cfgW
            (login cfgW (login cfgW dbW 10 "a@x.com" "secret1").2 11 "a@x.com" "secret1").2 12
            (some rt2)).1
          = RefreshResult.ok 200 tok) :=
  ⟨(C3_refresh_rotation cfgW dbW 10 11 12 "a@x.com" "secret1" uW
      (by decide) (by decide) (by decide) (by decide)).1
    cfgW dbW 50 rtW
    (Token.signed ⟨1, some "a@x.com", some "user"⟩ 50 "access-secret" 60) 200 (by decide),
   (C3_refresh_rotation cfgW dbW 10 11 12 "a@x.com" "secret1" uW
      (by decide) (by decide) (by decide) (by decide)).2⟩
